import Mathlib

/-!
Shallow embedding of `src/mmult_Optimized/main.c`, the single source file of
the repository: a matrix-multiplication benchmark driver.  The kernel
implementations (`impl_scalar_naive`, `impl_scalar_opt`, `impl_vector`,
`impl_parallel`) are declared in headers that are not part of the repository,
so a kernel's input/output behaviour is an opaque parameter (`kernelSem`);
everything `main.c` itself determines — argument parsing, the dimension-entry
loop, buffer allocation and initialization, which kernel is invoked, how many
times, with which argument descriptor, what is timed and printed, and the exit
status — is modelled directly from the source.

Modelling conventions: `size_t` dimensions and `rand()` draws are `Nat`;
matrix elements (produced only as `rand() % 10`) are `Nat`; `clock()` readings
are supplied as a list of tick counts and a measured runtime is the exact
rational `(end - start) / CLOCKS_PER_SEC`; `malloc` is assumed to succeed
(the allocation-failure branch at main.c:181-184 is not exercised by any
claim); buffer pointers are symbolic addresses.  Observable output is a list
of `Event`s covering the usage message, directory creation, allocation,
matrix printing, kernel invocation and the runtime report; the fixed prompt
strings of the dimension-entry dialogue depend only on stdin and carry no
data, so they are not recorded as events.
-/

namespace Mmult

/-- The four selectable kernel implementations of main.c (function pointers
`impl_scalar_naive`, `impl_scalar_opt`, `impl_vector`, `impl_parallel`). -/
inductive Impl where
  | naive
  | opt
  | vec
  | para
deriving DecidableEq, Repr

/-- Default value at main.c:33; never read anywhere else in main.c. -/
def num_runs : Nat := 10000

/-- Default value at main.c:34; never read anywhere else in main.c. -/
def nstdevs : Nat := 3

/-- The argument state of `main` (main.c:89-94) with its default values:
`nthreads = 1`, `cpu = 0`, `impl = NULL`, `impl_str = NULL`,
`run_both = false`, `help = false`. -/
structure Config where
  nthreads : Int := 1
  cpu : Int := 0
  impl : Option Impl := none
  impl_str : Option String := none
  run_both : Bool := false
  help : Bool := false
deriving DecidableEq, Repr

/-- Accumulate the leading decimal digits of a character list (helper for
`atoi`). -/
def atoiDigits : List Char → Nat → Nat
  | [], acc => acc
  | c :: cs, acc => if c.isDigit then atoiDigits cs (acc * 10 + (c.toNat - 48)) else acc

/-- Model of C `atoi` as used at main.c:123 and main.c:129: an optional minus
sign followed by the longest digit prefix; anything else contributes 0. -/
def atoi (s : String) : Int :=
  match s.data with
  | '-' :: cs => -(atoiDigits cs 0 : Int)
  | cs => (atoiDigits cs 0 : Int)

/-- Outcome of the argument-parsing loop (main.c:97-137).
`unknownImpl` is the `fprintf(stderr, "Unknown implementation: %s"); exit(1)`
branch (main.c:115-116); `assertFail` is a failure of `assert(++i < argc)`
(main.c:99, 122, 128), which aborts the process. -/
inductive ParseResult where
  | ok (cfg : Config)
  | unknownImpl (s : String)
  | assertFail
deriving DecidableEq, Repr

/-- The argument-parsing loop of `main` (main.c:97-137), transcribed clause by
clause: `-i`/`--impl` consumes the next argument and selects a kernel (or sets
`run_both` for `both`, or exits for an unknown name); `-n`/`--nthreads` and
`-c`/`--cpu` consume and `atoi` the next argument; `-h`/`--help` sets `help`
and breaks out of the loop; any other argument is skipped. -/
def parseArgs : List String → Config → ParseResult
  | [], cfg => .ok cfg
  | a :: rest, cfg =>
    if a = "-i" ∨ a = "--impl" then
      match rest with
      | [] => .assertFail
      | v :: rest2 =>
        if v = "naive" then
          parseArgs rest2 { cfg with impl := some .naive, impl_str := some "naive" }
        else if v = "opt" then
          parseArgs rest2 { cfg with impl := some .opt, impl_str := some "opt" }
        else if v = "vec" then
          parseArgs rest2 { cfg with impl := some .vec, impl_str := some "vectorized" }
        else if v = "para" then
          parseArgs rest2 { cfg with impl := some .para, impl_str := some "parallelized" }
        else if v = "both" then
          parseArgs rest2 { cfg with run_both := true }
        else
          .unknownImpl v
    else if a = "-n" ∨ a = "--nthreads" then
      match rest with
      | [] => .assertFail
      | v :: rest2 => parseArgs rest2 { cfg with nthreads := atoi v }
    else if a = "-c" ∨ a = "--cpu" then
      match rest with
      | [] => .assertFail
      | v :: rest2 => parseArgs rest2 { cfg with cpu := atoi v }
    else if a = "-h" ∨ a = "--help" then
      .ok { cfg with help := true }
    else
      parseArgs rest cfg

/-- The four matrix dimensions entered interactively (main.c:149-167). -/
structure Dims where
  rows_A : Nat
  cols_A : Nat
  rows_B : Nat
  cols_B : Nat
deriving DecidableEq, Repr

/-- The `rows_B` entry loop (main.c:157-164): read a value, and while it
differs from `cols_A`, print the mismatch message and read again.  The stdin
stream is a finite list; `none` means the stream was exhausted before a
matching value appeared. -/
def readRowsB (cols_A : Nat) : List Nat → Option (Nat × List Nat)
  | [] => none
  | v :: rest => if cols_A ≠ v then readRowsB cols_A rest else some (v, rest)

/-- The full dimension-entry dialogue (main.c:149-167): read `rows_A`,
`cols_A`, then `rows_B` through the re-prompting loop, then `cols_B`. -/
def readDims : List Nat → Option (Dims × List Nat)
  | rA :: cA :: rest =>
    match readRowsB cA rest with
    | some (rB, rest2) =>
      match rest2 with
      | cB :: rest3 =>
        some ({ rows_A := rA, cols_A := cA, rows_B := rB, cols_B := cB }, rest3)
      | [] => none
    | none => none
  | _ => none

/-- The kernel-argument descriptor.  `args_t` is declared in
`include/types.h`, which is not part of the repository; main.c initializes
exactly the fields `{ .input = A, .output = R, .size = rows_A }`
(main.c:202 and main.c:210), so those are the fields modelled.  The buffer
pointers are symbolic addresses. -/
structure args_t where
  input : Nat
  output : Nat
  size : Nat
deriving DecidableEq, Repr

/-- Symbolic address of the buffer `A` returned by `malloc` (main.c:177). -/
def addrA : Nat := 0

/-- Symbolic address of the buffer `B` returned by `malloc` (main.c:178). -/
def addrB : Nat := 1

/-- Symbolic address of the buffer `R` returned by `malloc` (main.c:179). -/
def addrR : Nat := 2

/-- One observable step of `main`.  `usage` is the help/usage printf block
(main.c:140-144), which interpolates the current `nthreads` and `cpu` values;
`printMat` is a `print_matrix` call with the buffer contents it prints;
`invoke` is a call through the selected kernel function pointer; `runtime` is
the `... Implementation Runtime: %.6f seconds` line, recorded as the raw tick
difference `end - start`; the seconds value it prints is
`reportedSeconds ticks`.  main.c contains no CPU-affinity call
(`sched_setaffinity` or similar), so no affinity event exists. -/
inductive Event where
  | usage (nthreads cpu : Int)
  | createResultDir
  | alloc (size_A size_B size_R : Nat)
  | printMat (name : String) (contents : List Nat) (rows cols : Nat)
  | running (msg : String)
  | invoke (k : Impl) (args : args_t)
  | runtime (label : String) (ticks : Int)
deriving DecidableEq, Repr

/-- Buffer initialization (main.c:188-193): element `i` is
`(float)(rand() % 10)`, drawing successive values from the `rand()` stream. -/
def initBuffer (rands : List Nat) (n : Nat) : List Nat :=
  (List.range n).map fun i => rands.getD i 0 % 10

/-- POSIX `CLOCKS_PER_SEC`. -/
def clocksPerSec : ℚ := 1000000

/-- The seconds value printed for a measured tick difference:
`(double)(end - start) / CLOCKS_PER_SEC` (main.c:206 and main.c:214), as an
exact rational. -/
def reportedSeconds (ticks : Int) : ℚ :=
  (ticks : ℚ) / clocksPerSec

/-- How one execution of `main` ends.  `exitUnknownImpl` is `exit(1)` from the
parse loop; `abortAssert` is an `assert` abort; `usageExit` is the
help/no-impl exit (main.c:139-146) with its exit code; `stdinExhausted` marks
a run whose stdin list ran out mid-dialogue (the C program would block or read
garbage there; no claim depends on it); `finished` is the normal `return 0`
path with the events emitted along the way. -/
inductive MainResult where
  | exitUnknownImpl (s : String)
  | abortAssert
  | usageExit (code : Nat) (events : List Event)
  | stdinExhausted (events : List Event)
  | finished (events : List Event)
deriving DecidableEq, Repr

/-- Everything `main` does after the argument-parsing loop (main.c:139-224),
for a parsed configuration: the help/no-impl usage exit, the dimension
dialogue, `create_result_directory`, allocation, random initialization of A
and B, printing A and B, and then either the `run_both` branch (which invokes
only `impl_scalar_naive`, main.c:200-208) or the selected-kernel branch
(main.c:209-217).  Each branch takes one `clock()` pair around a single kernel
invocation and prints one runtime line and the result matrix.  `kernelSem`
gives the (unknown, out-of-repository) kernel's output buffer as a function of
the descriptor and the A/B contents. -/
def execConfig (kernelSem : Impl → args_t → List Nat → List Nat → List Nat)
    (cfg : Config) (stdin rands clocks : List Nat) : MainResult :=
  if cfg.help || (cfg.impl.isNone && !cfg.run_both) then
    .usageExit (if cfg.help then 0 else 1) [.usage cfg.nthreads cfg.cpu]
  else
    match readDims stdin with
    | none => .stdinExhausted []
    | some (d, _) =>
      let size_A := d.rows_A * d.cols_A
      let size_B := d.rows_B * d.cols_B
      let size_R := d.rows_A * d.cols_B
      let A := initBuffer rands size_A
      let B := initBuffer (rands.drop size_A) size_B
      let ticks : Int := (clocks.getD 1 0 : Int) - (clocks.getD 0 0 : Int)
      let pre := [Event.createResultDir, Event.alloc size_A size_B size_R,
                  Event.printMat "Matrix A" A d.rows_A d.cols_A,
                  Event.printMat "Matrix B" B d.rows_B d.cols_B]
      if cfg.run_both then
        let args : args_t := { input := addrA, output := addrR, size := d.rows_A }
        let Rout := kernelSem .naive args A B
        .finished (pre ++
          [.running "Running naive implementation...",
           .invoke .naive args,
           .runtime "Naive" ticks,
           .printMat "Result Matrix R (Naive)" Rout d.rows_A d.cols_B])
      else
        match cfg.impl with
        | some k =>
          let args : args_t := { input := addrA, output := addrR, size := d.rows_A }
          let Rout := kernelSem k args A B
          .finished (pre ++
            [.invoke k args,
             .runtime (cfg.impl_str.getD "") ticks,
             .printMat "Result Matrix R" Rout d.rows_A d.cols_B])
        | none =>
          -- unreachable: the guard above already exited when impl is none
          -- and run_both is false
          .usageExit 1 []

/-- One whole execution of `main`: parse the arguments (exiting or aborting if
the parse loop does), then run the rest of the program. -/
def runMain (kernelSem : Impl → args_t → List Nat → List Nat → List Nat)
    (argv : List String) (stdin rands clocks : List Nat) : MainResult :=
  match parseArgs argv {} with
  | .unknownImpl s => .exitUnknownImpl s
  | .assertFail => .abortAssert
  | .ok cfg => execConfig kernelSem cfg stdin rands clocks

/-- The events an execution emitted. -/
def eventsOf : MainResult → List Event
  | .exitUnknownImpl _ => []
  | .abortAssert => []
  | .usageExit _ ev => ev
  | .stdinExhausted ev => ev
  | .finished ev => ev

/-- The process exit code: `none` when the process aborted (assert) or the
model has no exit for it (stdin exhausted). -/
def codeOf : MainResult → Option Nat
  | .exitUnknownImpl _ => some 1
  | .abortAssert => none
  | .usageExit c _ => some c
  | .stdinExhausted _ => none
  | .finished _ => some 0

/-- Project a kernel-invocation event. -/
def invokeOf : Event → Option (Impl × args_t)
  | .invoke k a => some (k, a)
  | _ => none

/-- The kernels invoked during an execution, in order. -/
def invokedKernels (r : MainResult) : List Impl :=
  (eventsOf r).filterMap fun e => (invokeOf e).map Prod.fst

/-- The argument descriptors passed to kernel invocations, in order. -/
def invokeArgs (r : MainResult) : List args_t :=
  (eventsOf r).filterMap fun e => (invokeOf e).map Prod.snd

/-- The runtime-report lines (label, measured ticks) of an execution, in
order; line `(l, t)` prints `reportedSeconds t` seconds. -/
def runtimesOf (r : MainResult) : List (String × Int) :=
  (eventsOf r).filterMap fun e =>
    match e with
    | .runtime l t => some (l, t)
    | _ => none

/-- The result-matrix buffers printed by an execution. -/
def printedResults (r : MainResult) : List (List Nat) :=
  (eventsOf r).filterMap fun e =>
    match e with
    | .printMat n c _ _ =>
      if n = "Result Matrix R" ∨ n = "Result Matrix R (Naive)" then some c else none
    | _ => none

/-- Whether the execution reached the normal `return 0`. -/
def isFinished : MainResult → Bool
  | .finished _ => true
  | _ => false

/-- A trivial kernel semantics (writes nothing into R); used to instantiate
the opaque kernel parameter in concrete executions. -/
def ksZero : Impl → args_t → List Nat → List Nat → List Nat := fun _ _ _ _ => []

/-- Modelled from the spec: the Reference Kernel contract of spec §4.1 — the
kernel sources are not in the repository — `R[i][j] = Σ_t A[i][t] * B[t][j]`
for `A` of shape m×k and `B` of shape k×n, row-major, summing `t = 0..k-1`. -/
def refMultSpec (A B : List Nat) (m k n : Nat) : List Nat :=
  (List.range (m * n)).map fun idx =>
    let i := idx / n
    let j := idx % n
    (List.range k).foldl (fun acc t => acc + A.getD (i * k + t) 0 * B.getD (t * n + j) 0) 0

/-- The `rows_B` entry loop only ever returns a value equal to `cols_A`. -/
theorem readRowsB_eq (cA : Nat) (l : List Nat) (v : Nat) (rest : List Nat)
    (h : readRowsB cA l = some (v, rest)) : v = cA := by
  induction l generalizing rest with
  | nil => simp [readRowsB] at h
  | cons x xs ih =>
    simp only [readRowsB] at h
    split at h
    · exact ih rest h
    · rename_i hx
      push_neg at hx
      cases h
      exact hx.symm

/-- The dimension-entry dialogue only ever returns dimensions with
`cols_A = rows_B`. -/
theorem readDims_compat (stdin : List Nat) (d : Dims) (rest : List Nat)
    (h : readDims stdin = some (d, rest)) : d.cols_A = d.rows_B := by
  cases stdin with
  | nil => simp [readDims] at h
  | cons rA t =>
    cases t with
    | nil => simp [readDims] at h
    | cons cA l =>
      simp only [readDims] at h
      cases hr : readRowsB cA l with
      | none => rw [hr] at h; simp at h
      | some p =>
        obtain ⟨rB, rest2⟩ := p
        rw [hr] at h
        cases rest2 with
        | nil => simp at h
        | cons cB rest3 =>
          cases h
          exact (readRowsB_eq _ _ _ _ hr).symm

/-- C6: a command line that requests an unrecognized kernel name makes the
parse loop exit with status 1 before anything else happens: the run produces
no events at all — in particular no allocation and no kernel invocation or
timing. -/
theorem unknown_impl_rejected_before_alloc
    (ks : Impl → args_t → List Nat → List Nat → List Nat)
    (argv : List String) (stdin rands clocks : List Nat) (s : String)
    (h : parseArgs argv {} = .unknownImpl s) :
    runMain ks argv stdin rands clocks = .exitUnknownImpl s ∧
    eventsOf (runMain ks argv stdin rands clocks) = [] ∧
    codeOf (runMain ks argv stdin rands clocks) = some 1 := by
  simp [runMain, h, eventsOf, codeOf]

/-- Witness for C6 at the spec's own example: kernel name `bogus`. -/
theorem unknown_impl_rejected_before_alloc_witness :
    runMain ksZero ["-i", "bogus"] [] [] [] = .exitUnknownImpl "bogus" ∧
    eventsOf (runMain ksZero ["-i", "bogus"] [] [] []) = [] ∧
    codeOf (runMain ksZero ["-i", "bogus"] [] [] []) = some 1 :=
  unknown_impl_rejected_before_alloc ksZero ["-i", "bogus"] [] [] [] "bogus" (by decide)

/-- C7: whenever an execution invokes any kernel, the dimension dialogue
succeeded and the dimensions it produced satisfy `cols_A = rows_B` — the
re-prompting loop of main.c:160-164 does not let execution continue until the
entered `rows_B` equals `cols_A`. -/
theorem kernel_invoked_only_with_compatible_dims
    (ks : Impl → args_t → List Nat → List Nat → List Nat)
    (argv : List String) (stdin rands clocks : List Nat)
    (h : invokedKernels (runMain ks argv stdin rands clocks) ≠ []) :
    ∃ d rest, readDims stdin = some (d, rest) ∧ d.cols_A = d.rows_B := by
  cases hp : parseArgs argv {} with
  | unknownImpl s => simp [runMain, hp, invokedKernels, eventsOf] at h
  | assertFail => simp [runMain, hp, invokedKernels, eventsOf] at h
  | ok cfg =>
    simp only [runMain, hp] at h
    unfold execConfig at h
    split at h
    · simp [invokedKernels, eventsOf, invokeOf] at h
    · cases hd : readDims stdin with
      | none => rw [hd] at h; simp [invokedKernels, eventsOf] at h
      | some p =>
        obtain ⟨d, rest⟩ := p
        exact ⟨d, rest, rfl, readDims_compat stdin d rest hd⟩

/-- Witness for C7: a session that tries `rows_B = 5`, then `9`, and is
re-prompted until it enters `3 = cols_A`. -/
theorem kernel_invoked_only_with_compatible_dims_witness :
    ∃ d rest, readDims [2, 3, 5, 9, 3, 4] = some (d, rest) ∧ d.cols_A = d.rows_B :=
  kernel_invoked_only_with_compatible_dims ksZero ["-i", "opt"]
    [2, 3, 5, 9, 3, 4] [1, 2, 3] [0, 1] (by decide)

/-- C9: each of the six value-taking flags, given as the final argument with
no value after it, makes `assert(++i < argc)` fail, aborting the process
(modelled as `abortAssert`, with no exit status) instead of producing a clean
configuration error. -/
theorem dangling_flag_assert_aborts :
    parseArgs ["-i"] {} = .assertFail ∧
    parseArgs ["--impl"] {} = .assertFail ∧
    parseArgs ["-n"] {} = .assertFail ∧
    parseArgs ["--nthreads"] {} = .assertFail ∧
    parseArgs ["-c"] {} = .assertFail ∧
    parseArgs ["--cpu"] {} = .assertFail ∧
    runMain ksZero ["-c"] [] [] [] = .abortAssert ∧
    codeOf (runMain ksZero ["-c"] [] [] []) = none := by
  decide

/-- C10: after initialization, element `i` of a buffer filled by the loop at
main.c:188-193 is exactly the `i`-th `rand()` draw reduced mod 10 — an
integer in `[0, 9]` (hence exactly representable in single precision). -/
theorem init_elements_are_rand_mod_ten (rands : List Nat) (n i : Nat) (h : i < n) :
    (initBuffer rands n).getD i 0 = rands.getD i 0 % 10 ∧
    (initBuffer rands n).getD i 0 < 10 := by
  have h1 : (initBuffer rands n).getD i 0 = rands.getD i 0 % 10 := by
    unfold initBuffer
    rw [List.getD_eq_getElem?_getD, List.getElem?_map, List.getElem?_range h]
    rfl
  refine ⟨h1, ?_⟩
  rw [h1]
  exact Nat.mod_lt _ (by norm_num)

/-- Witness for C10 at a concrete buffer. -/
theorem init_elements_are_rand_mod_ten_witness :
    (initBuffer [7, 13, 25] 3).getD 1 0 = [7, 13, 25].getD 1 0 % 10 ∧
    (initBuffer [7, 13, 25] 3).getD 1 0 < 10 :=
  init_elements_are_rand_mod_ten [7, 13, 25] 3 1 (by decide)

/-- C1 counterexample: in a complete benchmark execution the selected kernel
is invoked exactly once, not `num_runs` (= 10000) times. -/
theorem invocation_count_one_not_num_runs :
    (invokedKernels (runMain ksZero ["-i", "naive"] [1, 1, 1, 1] [3, 4] [0, 2000000])).length = 1 ∧
    num_runs = 10000 ∧ (1 : Nat) ≠ 10000 := by
  decide

/-- C1 amended: on every execution that reaches the benchmark phase (arguments
parsed, help not requested, a kernel or `both` selected, dimensions entered),
the driver invokes a kernel exactly once and emits exactly one timed-runtime
report; `num_runs` is never consulted. -/
theorem driver_invokes_kernel_exactly_once
    (ks : Impl → args_t → List Nat → List Nat → List Nat)
    (argv : List String) (cfg : Config) (stdin rands clocks : List Nat)
    (d : Dims) (rest : List Nat)
    (hp : parseArgs argv {} = .ok cfg)
    (hcond : (cfg.help || (cfg.impl.isNone && !cfg.run_both)) = false)
    (hdims : readDims stdin = some (d, rest)) :
    (invokedKernels (runMain ks argv stdin rands clocks)).length = 1 ∧
    (runtimesOf (runMain ks argv stdin rands clocks)).length = 1 := by
  simp only [runMain, hp]
  unfold execConfig
  rw [hcond, hdims]
  cases hb : cfg.run_both with
  | true => simp [invokedKernels, runtimesOf, eventsOf, invokeOf]
  | false =>
    cases hi : cfg.impl with
    | some k => simp [invokedKernels, runtimesOf, eventsOf, invokeOf]
    | none => rw [hi, hb] at hcond; simp at hcond

/-- Witness for C1's amended statement at a concrete execution. -/
theorem driver_invokes_kernel_exactly_once_witness :
    (invokedKernels (runMain ksZero ["-i", "para"] [2, 2, 2, 2]
      [1, 2, 3, 4, 5, 6, 7, 8] [0, 4000000])).length = 1 ∧
    (runtimesOf (runMain ksZero ["-i", "para"] [2, 2, 2, 2]
      [1, 2, 3, 4, 5, 6, 7, 8] [0, 4000000])).length = 1 :=
  driver_invokes_kernel_exactly_once ksZero ["-i", "para"]
    { impl := some .para, impl_str := some "parallelized" }
    [2, 2, 2, 2] [1, 2, 3, 4, 5, 6, 7, 8] [0, 4000000]
    { rows_A := 2, cols_A := 2, rows_B := 2, cols_B := 2 } []
    (by decide) (by decide) (by decide)

/-- C2 counterexample: only one duration is ever collected (so the claimed
10-sample trimming scenario cannot arise), and the reported value is the raw
single measurement — here a 100-second run is reported as 100 s with no
mean/σ computation and no discarding; `nstdevs` (default 3) is never read. -/
theorem single_duration_reported_untrimmed :
    runtimesOf (runMain ksZero ["-i", "opt"] [2, 2, 2, 2]
      [1, 2, 3, 4, 5, 6, 7, 8] [0, 100000000]) = [("opt", 100000000)] ∧
    (runtimesOf (runMain ksZero ["-i", "opt"] [2, 2, 2, 2]
      [1, 2, 3, 4, 5, 6, 7, 8] [0, 100000000])).length = 1 ∧
    (1 : Nat) ≠ 10 ∧
    reportedSeconds 100000000 = 100 := by
  refine ⟨by decide, by decide, by decide, ?_⟩
  norm_num [reportedSeconds, clocksPerSec]

/-- C2 amended: on every execution that reaches the benchmark phase, the
runtime report is exactly one line whose value is the raw tick difference
`end - start` of the single clock pair — no mean, no standard deviation, no
outlier discarding. -/
theorem driver_reports_single_raw_duration
    (ks : Impl → args_t → List Nat → List Nat → List Nat)
    (argv : List String) (cfg : Config) (stdin rands clocks : List Nat)
    (d : Dims) (rest : List Nat)
    (hp : parseArgs argv {} = .ok cfg)
    (hcond : (cfg.help || (cfg.impl.isNone && !cfg.run_both)) = false)
    (hdims : readDims stdin = some (d, rest)) :
    ∃ l, runtimesOf (runMain ks argv stdin rands clocks) =
      [(l, (clocks.getD 1 0 : Int) - (clocks.getD 0 0 : Int))] := by
  simp only [runMain, hp]
  unfold execConfig
  rw [hcond, hdims]
  cases hb : cfg.run_both with
  | true => exact ⟨"Naive", by simp [runtimesOf, eventsOf]⟩
  | false =>
    cases hi : cfg.impl with
    | some k => exact ⟨cfg.impl_str.getD "", by simp [runtimesOf, eventsOf]⟩
    | none => rw [hi, hb] at hcond; simp at hcond

/-- Witness for C2's amended statement at a concrete execution. -/
theorem driver_reports_single_raw_duration_witness :
    ∃ l, runtimesOf (runMain ksZero ["-i", "vec"] [3, 3, 3, 3] [] [5, 25]) =
      [(l, (([5, 25] : List Nat).getD 1 0 : Int) - (([5, 25] : List Nat).getD 0 0 : Int))] :=
  driver_reports_single_raw_duration ksZero ["-i", "vec"]
    { impl := some .vec, impl_str := some "vectorized" }
    [3, 3, 3, 3] [] [5, 25]
    { rows_A := 3, cols_A := 3, rows_B := 3, cols_B := 3 } []
    (by decide) (by decide) (by decide)

/-- C3 (evaluating the code at the failing input): two different non-square
problems — A 2×3 with B 3×4, and A 2×5 with B 5×7 — produce bit-identical
argument descriptors: main.c passes only `{ .input = A, .output = R,
.size = rows_A }`, so neither the shared dimension nor `cols_B` ever reaches
the kernel, and the kernel cannot determine the m×n product shape. -/
theorem descriptor_carries_only_rows_A :
    invokeArgs (runMain ksZero ["-i", "opt"] [2, 3, 3, 4] [9, 8, 7, 6, 5, 4] [0, 1000000]) =
      [{ input := addrA, output := addrR, size := 2 }] ∧
    invokeArgs (runMain ksZero ["-i", "opt"] [2, 5, 5, 7] [9, 8, 7, 6, 5, 4] [0, 1000000]) =
      [{ input := addrA, output := addrR, size := 2 }] ∧
    invokeArgs (runMain ksZero ["-i", "opt"] [2, 3, 3, 4] [9, 8, 7, 6, 5, 4] [0, 1000000]) =
      invokeArgs (runMain ksZero ["-i", "opt"] [2, 5, 5, 7] [9, 8, 7, 6, 5, 4] [0, 1000000]) := by
  decide

/-- C4 counterexample: a run whose kernel writes an output entirely different
from the reference product (here: nothing at all, while the reference product
of the generated A and B is `[19, 22, 43, 50]`) still exits with status 0,
performs exactly one kernel invocation (no reference run), and prints the
wrong buffer as the result — no validation failure is surfaced. -/
theorem wrong_result_not_surfaced :
    codeOf (runMain ksZero ["-i", "vec"] [2, 2, 2, 2]
      [1, 2, 3, 4, 5, 6, 7, 8] [0, 1000000]) = some 0 ∧
    invokedKernels (runMain ksZero ["-i", "vec"] [2, 2, 2, 2]
      [1, 2, 3, 4, 5, 6, 7, 8] [0, 1000000]) = [Impl.vec] ∧
    printedResults (runMain ksZero ["-i", "vec"] [2, 2, 2, 2]
      [1, 2, 3, 4, 5, 6, 7, 8] [0, 1000000]) = [[]] ∧
    refMultSpec (initBuffer [1, 2, 3, 4, 5, 6, 7, 8] 4)
      (initBuffer ([1, 2, 3, 4, 5, 6, 7, 8].drop 4) 4) 2 2 2 = [19, 22, 43, 50] ∧
    ([] : List Nat) ≠ [19, 22, 43, 50] := by
  decide

/-- The outcome skeleton of the post-parse phase does not depend on the
kernel's input/output behaviour: exit status and the sequence of kernel
invocations are the same for any two kernel semantics, and at most one
invocation ever happens. -/
theorem execConfig_outcome_independent
    (ks1 ks2 : Impl → args_t → List Nat → List Nat → List Nat)
    (cfg : Config) (stdin rands clocks : List Nat) :
    codeOf (execConfig ks1 cfg stdin rands clocks) =
      codeOf (execConfig ks2 cfg stdin rands clocks) ∧
    invokedKernels (execConfig ks1 cfg stdin rands clocks) =
      invokedKernels (execConfig ks2 cfg stdin rands clocks) ∧
    (invokedKernels (execConfig ks1 cfg stdin rands clocks)).length ≤ 1 := by
  unfold execConfig
  cases hcond : (cfg.help || (cfg.impl.isNone && !cfg.run_both)) with
  | true => simp [codeOf, invokedKernels, eventsOf, invokeOf]
  | false =>
    simp only [Bool.false_eq_true, if_false]
    cases hd : readDims stdin with
    | none => simp [codeOf, invokedKernels, eventsOf]
    | some p =>
      obtain ⟨d, rest⟩ := p
      cases hb : cfg.run_both with
      | true => simp [codeOf, invokedKernels, eventsOf, invokeOf]
      | false =>
        cases hi : cfg.impl with
        | some k => simp [codeOf, invokedKernels, eventsOf, invokeOf]
        | none => simp [codeOf, invokedKernels, eventsOf]

/-- C4 amended: the driver never runs a reference kernel and performs no
correctness validation: the exit status and the invocation sequence of every
execution are independent of what the kernel computes (a wrong result is
printed and the program still exits 0), and at most one kernel invocation
occurs per execution. -/
theorem outcome_independent_of_kernel_output
    (ks1 ks2 : Impl → args_t → List Nat → List Nat → List Nat)
    (argv : List String) (stdin rands clocks : List Nat) :
    codeOf (runMain ks1 argv stdin rands clocks) =
      codeOf (runMain ks2 argv stdin rands clocks) ∧
    invokedKernels (runMain ks1 argv stdin rands clocks) =
      invokedKernels (runMain ks2 argv stdin rands clocks) ∧
    (invokedKernels (runMain ks1 argv stdin rands clocks)).length ≤ 1 := by
  cases hp : parseArgs argv {} with
  | unknownImpl s => simp [runMain, hp, invokedKernels, eventsOf]
  | assertFail => simp [runMain, hp, invokedKernels, eventsOf]
  | ok cfg =>
    simp only [runMain, hp]
    exact execConfig_outcome_independent ks1 ks2 cfg stdin rands clocks

/-- C5 counterexample: with `-i both` the program invokes only the naive
kernel; the optimized, vectorized and parallel kernels are never run. -/
theorem both_runs_only_naive_counterexample :
    invokedKernels (runMain ksZero ["-i", "both"] [2, 2, 2, 2]
      [0, 1, 2, 3, 4, 5, 6, 7] [0, 3000000]) = [Impl.naive] ∧
    Impl.opt ∉ invokedKernels (runMain ksZero ["-i", "both"] [2, 2, 2, 2]
      [0, 1, 2, 3, 4, 5, 6, 7] [0, 3000000]) ∧
    Impl.vec ∉ invokedKernels (runMain ksZero ["-i", "both"] [2, 2, 2, 2]
      [0, 1, 2, 3, 4, 5, 6, 7] [0, 3000000]) ∧
    Impl.para ∉ invokedKernels (runMain ksZero ["-i", "both"] [2, 2, 2, 2]
      [0, 1, 2, 3, 4, 5, 6, 7] [0, 3000000]) := by
  decide

/-- C5 amended: every execution whose parsed configuration has `run_both` set
(kernel name `both`) and that reaches the benchmark phase invokes exactly the
naive kernel, once. -/
theorem both_option_invokes_only_naive
    (ks : Impl → args_t → List Nat → List Nat → List Nat)
    (argv : List String) (cfg : Config) (stdin rands clocks : List Nat)
    (d : Dims) (rest : List Nat)
    (hp : parseArgs argv {} = .ok cfg)
    (hb : cfg.run_both = true)
    (hh : cfg.help = false)
    (hdims : readDims stdin = some (d, rest)) :
    invokedKernels (runMain ks argv stdin rands clocks) = [Impl.naive] := by
  simp only [runMain, hp]
  unfold execConfig
  rw [hb, hh, hdims]
  simp [invokedKernels, eventsOf, invokeOf]

/-- Witness for C5's amended statement at a concrete execution. -/
theorem both_option_invokes_only_naive_witness :
    invokedKernels (runMain ksZero ["-i", "both"] [1, 2, 2, 2] [6, 7] [0, 1]) = [Impl.naive] :=
  both_option_invokes_only_naive ksZero ["-i", "both"] { run_both := true }
    [1, 2, 2, 2] [6, 7] [0, 1]
    { rows_A := 1, cols_A := 2, rows_B := 2, cols_B := 2 } []
    (by decide) (by decide) (by decide) (by decide)

/-- C8 counterexample: two command lines identical except for the value given
to `-c` produce different observable output — the usage message printed when
no kernel was selected echoes the parsed cpu value. -/
theorem cpu_value_changes_usage_output :
    runMain ksZero ["-c", "5"] [] [] [] ≠ runMain ksZero ["-c", "7"] [] [] [] ∧
    runMain ksZero ["-c", "5"] [] [] [] = .usageExit 1 [.usage 1 5] ∧
    runMain ksZero ["-c", "7"] [] [] [] = .usageExit 1 [.usage 1 7] := by
  decide

/-- C8 amended: no CPU affinity is ever set (main.c contains no affinity
call, so the event model has none), and the parsed cpu value is dead on the
benchmark path: two parsed configurations that agree on every field except
`cpu` produce identical executions whenever help was not requested and a
kernel (or `both`) was selected; only the usage message can differ, as it
echoes `cpu`. -/
theorem cpu_ignored_on_benchmark_path
    (ks : Impl → args_t → List Nat → List Nat → List Nat)
    (cfg : Config) (c : Int) (stdin rands clocks : List Nat)
    (hcond : (cfg.help || (cfg.impl.isNone && !cfg.run_both)) = false) :
    execConfig ks { cfg with cpu := c } stdin rands clocks =
      execConfig ks cfg stdin rands clocks := by
  obtain ⟨nt, cp, im, istr, rb, hlp⟩ := cfg
  unfold execConfig
  rw [hcond]
  simp only [Bool.false_eq_true, if_false]

/-- Witness for C8's amended statement at a concrete configuration. -/
theorem cpu_ignored_on_benchmark_path_witness :
    execConfig ksZero { (({ impl := some .opt, impl_str := some "opt" } : Config)) with cpu := 99 }
      [2, 2, 2, 2] [1, 2] [0, 1] =
    execConfig ksZero { impl := some .opt, impl_str := some "opt" } [2, 2, 2, 2] [1, 2] [0, 1] :=
  cpu_ignored_on_benchmark_path ksZero { impl := some .opt, impl_str := some "opt" } 99
    [2, 2, 2, 2] [1, 2] [0, 1] (by decide)

end Mmult
